import Mathlib

/-
Verification of the contact-manager repository (sources: DataPersistence.py,
InputDataValidator.py, contact_manager/QueryDatabase.py,
contact_manager/GooglePlacesAPI.py) against its natural-language
specification.

The Python sources are shallowly embedded below.  Pure computations become
Lean functions; Python runtime failures (raised exceptions) are made explicit
with an `Except PyErr` result; the database connection bookkeeping is made
explicit by threading a small world state.  Each definition carries a doc
comment naming the source function and lines it embeds, including the exact
runtime defects the source exhibits (undefined names, class-method receiver
mix-ups, stubbed bodies), which are modelled as the error values Python would
raise at the corresponding line.
-/

set_option linter.unusedVariables false

/-- The Python exception kinds the embedded code can raise.  Each constructor
carries a short payload identifying the offending name or message. -/
inductive PyErr where
  /-- Python NameError / use of an undefined identifier; payload is the name. -/
  | nameError (n : String)
  /-- Python UnboundLocalError: a local variable referenced before assignment. -/
  | unboundLocalError (n : String)
  /-- Python AttributeError; payload names the missing attribute. -/
  | attributeError (n : String)
  /-- Python TypeError; payload describes the call. -/
  | typeError (n : String)
  /-- Python KeyError; payload is the missing key. -/
  | keyError (n : String)
  /-- Python ValueError; payload is the message. -/
  | valueError (msg : String)
  /-- psycopg2 OperationalError raised when connecting fails. -/
  | operationalError (msg : String)
  /-- InputDataValidator.InputDataError (a ValueError subclass). -/
  | inputDataError (msg : String)
  /-- GooglePlacesAPI.GooglePlacesError. -/
  | googlePlacesError (msg : String)
deriving DecidableEq, Repr

/-- Whether an `Except` result is a normal (non-raising) return. -/
def exceptOk {α : Type} : Except PyErr α → Bool
  | .ok _ => true
  | .error _ => false

/-- A Python value as it appears in a request-parameter dict: None, an int,
or a string. -/
inductive PyVal where
  | none
  | int (n : Int)
  | str (s : String)
deriving DecidableEq, Repr

/-- Lift an optional string to a `PyVal` (absent becomes Python None). -/
def PyVal.ofOptStr : Option String → PyVal
  | Option.none => PyVal.none
  | Option.some s => PyVal.str s

namespace QueryDB

/- Embedding of contact_manager/QueryDatabase.py (class QueryDB).
The SQL template constants are embedded with their statement text
(surrounding whitespace normalised). -/

/-- QueryDatabase.py line 12: the FIELDS list. -/
def FIELDS : List String := ["Name", "Lastname", "Phone", "Direction", "Email", "Web"]

/-- QueryDatabase.py lines 14-16. -/
def SQL_CHECK : String := "SELECT version()"

/-- QueryDatabase.py lines 42-44.  Note the source selects from the
misspelled table name Contactos, not Contacts. -/
def SQL_SELECT : String := "SELECT * FROM Contactos WHERE"

/-- QueryDatabase.py lines 45-47. -/
def SQL_SORT : String := " ORDER BY Name ASC, Lastname ASC"

/-- QueryDatabase.py lines 48-50. -/
def SQL_SELECT_ALL : String := "SELECT Contact_id, Name, Lastname FROM Contacts"

/-- QueryDatabase.py lines 64-71, classmethod `queries_dict`.  Its parameter
is `cls`, but the body reads `self.__class__.__dict__` (and later the bare
name `FIELDS`); `self` is not defined in that scope, so every call raises
NameError before producing any dictionary. -/
def queries_dict : Except PyErr (List (String × String)) :=
  .error (.nameError "self")

end QueryDB

namespace ContactManagerDB

/- Embedding of DataPersistence.py (class ContactManagerDB).

A registry / criteria mapping supplied by the caller is an association list
of field name to raw string, read with `.get` (here `List.lookup`). -/

/-- A raw field mapping (Python dict of field name to value). -/
def Registry := List (String × String)

/-- A row returned from the database (opaque payload). -/
def Row := List String

/-- The world state threaded through database operations: whether the
configured server currently refuses connections, how many connections were
ever opened and closed, and how many SQL statements were ever handed to
`cursor.execute`. -/
structure PgWorld where
  connectFails : Bool
  opened : Nat
  closed : Nat
  executed : Nat
deriving DecidableEq, Repr

/-- DataPersistence.py lines 76-82, `_connection_database`: opens a
connection/cursor pair, or raises the driver's OperationalError (which is not
a `ContactManagerErrorDB`, so no `except` clause in this file catches it). -/
def connection_database (w : PgWorld) : Except PyErr Unit × PgWorld :=
  if w.connectFails then
    (.error (.operationalError "connection failed"), w)
  else
    (.ok (), { w with opened := w.opened + 1 })

/-- DataPersistence.py lines 84-90, `_close_connection_database`: closes the
cursor and the connection. -/
def close_connection_database (w : PgWorld) : PgWorld :=
  { w with closed := w.closed + 1 }

/-- DataPersistence.py lines 121-127, `_get_registry_input`.  The body is a
bare `pass` under a `#TODO` comment, so the function ignores the submitted
registry entirely and returns Python None. -/
def get_registry_input (registry : Registry) (contact_id : Option Int) :
    Option (List (String × String)) :=
  Option.none

/-- DataPersistence.py lines 129-143, `insert_new_registry`.

Source control flow: `input_data = self._get_registry_input(registry)` (which
is None); then inside try, acquire the connection; then evaluate
`QueryDB.queries_dict()[SQL_INSERT]`.  `queries_dict` raises NameError
(`self`), which `except ContactManagerErrorDB` does not catch; the `finally`
clause closes the connection and the NameError propagates.  Were
`queries_dict` ever to return, the bare subscript name `SQL_INSERT` is itself
undefined in this module (it lives on QueryDB), raising NameError as well.
If the connection attempt itself raises, `db` and `cursor` are unbound and
the `finally` clause raises UnboundLocalError. -/
def insert_new_registry (registry : Registry) (w : PgWorld) :
    Except PyErr Int × PgWorld :=
  let input_data := get_registry_input registry Option.none
  match connection_database w with
  | (.error _, w1) => (.error (.unboundLocalError "db"), w1)
  | (.ok _, w1) =>
    match QueryDB.queries_dict with
    | .error e => (.error e, close_connection_database w1)
    | .ok _ =>
      (.error (.nameError "SQL_INSERT"),
        close_connection_database { w1 with executed := w1.executed + 1 })

/-- DataPersistence.py lines 145-162, `update_registry`: same shape as
insert; dies at `QueryDB.queries_dict()` (NameError `self`) before the bare
name `SQL_UPDATE` (also undefined here) could be evaluated, with the
connection closed by `finally`. -/
def update_registry (registry : Registry) (contact_id : Int) (w : PgWorld) :
    Except PyErr Int × PgWorld :=
  let input_data := get_registry_input registry (Option.some contact_id)
  match connection_database w with
  | (.error _, w1) => (.error (.unboundLocalError "db"), w1)
  | (.ok _, w1) =>
    match QueryDB.queries_dict with
    | .error e => (.error e, close_connection_database w1)
    | .ok _ =>
      (.error (.nameError "SQL_UPDATE"),
        close_connection_database { w1 with executed := w1.executed + 1 })

/-- DataPersistence.py lines 164-176, `list_selected_contacts`: acquires the
connection, then dies at `QueryDB.queries_dict()` (NameError) before
`SQL_SELECT_ALL` (also an undefined bare name here) or any execute;
`finally` closes the connection. -/
def list_selected_contacts (w : PgWorld) : Except PyErr (List Row) × PgWorld :=
  match connection_database w with
  | (.error _, w1) => (.error (.unboundLocalError "db"), w1)
  | (.ok _, w1) =>
    match QueryDB.queries_dict with
    | .error e => (.error e, close_connection_database w1)
    | .ok _ =>
      (.error (.nameError "SQL_SELECT_ALL"),
        close_connection_database { w1 with executed := w1.executed + 1 })

/-- DataPersistence.py lines 216-231, `_query_conditions`.  The parameters
are (name, post_town_country, email), but after the `if name:` clause the
body tests and reads the bare name `direction`, which is not bound in that
scope, so the function always raises NameError before any list of conditions
can be returned. -/
def query_conditions (name post_town_country email : Option String) :
    Except PyErr (List String) :=
  let conditions : List String :=
    match name with
    | Option.some n =>
        [" Name = " ++ String.singleton (Char.ofNat 39) ++ n ++
          String.singleton (Char.ofNat 39) ++ " "]
    | Option.none => []
  .error (.nameError "direction")

/-- DataPersistence.py lines 199-214, `_construct_query`.  Its first
statement is `sql = QueryDB.queries_dict()[SQL_SELECT]`: `queries_dict`
raises NameError (`self`) at once (and the bare subscript name `SQL_SELECT`
is also undefined in this module), so the filter conditions, the AND
joining and the sort clause are never reached. -/
def construct_query (name direction email : Option String) :
    Except PyErr (Option String) :=
  match QueryDB.queries_dict with
  | .error e => .error e
  | .ok _ => .error (.nameError "SQL_SELECT")

/-- DataPersistence.py lines 178-197, `query_registry`: reads the Name,
Direction and Email criteria, acquires the connection, then calls
`_construct_query`, which raises; `except ContactManagerErrorDB` does not
catch NameError, `finally` closes the connection, and the error propagates,
so the `return rows` line (rows = []) is never reached. -/
def query_registry (registry : Registry) (w : PgWorld) :
    Except PyErr (List Row) × PgWorld :=
  let name := List.lookup "Name" registry
  let direction := List.lookup "Direction" registry
  let email := List.lookup "Email" registry
  match connection_database w with
  | (.error _, w1) => (.error (.unboundLocalError "db"), w1)
  | (.ok _, w1) =>
    match construct_query name direction email with
    | .error e => (.error e, close_connection_database w1)
    | .ok (Option.some _) =>
      (.ok [], close_connection_database { w1 with executed := w1.executed + 1 })
    | .ok Option.none => (.ok [], close_connection_database w1)

/-- DataPersistence.py lines 233-248, `delete_registry`: acquires the
connection, dies at `QueryDB.queries_dict()` (NameError `self`, with the
bare name `SQL_DELETE` also undefined here), and the `finally` clause closes
the connection. -/
def delete_registry (contact_id : Int) (w : PgWorld) :
    Except PyErr Int × PgWorld :=
  match connection_database w with
  | (.error _, w1) => (.error (.unboundLocalError "db"), w1)
  | (.ok _, w1) =>
    match QueryDB.queries_dict with
    | .error e => (.error e, close_connection_database w1)
    | .ok _ =>
      (.error (.nameError "SQL_DELETE"),
        close_connection_database { w1 with executed := w1.executed + 1 })

/-- How many connections an operation run from world `w` acquires: one when
the connection attempt succeeds, none when it fails. -/
def acquiredFrom (w : PgWorld) : Nat :=
  if w.connectFails then 0 else 1

end ContactManagerDB

/-- C1: for every record with valid required Name and Lastname, insert
followed by list or search shows the newly inserted record exactly once with
the submitted field values.  Against the code this fails: the input-fetching
step `_get_registry_input` is an unimplemented `pass` stub returning None for
every registry (so the submitted values never reach the insert statement),
and `insert_new_registry` / `list_selected_contacts` / `query_registry` all
raise (NameError from the broken `QueryDB.queries_dict`, or
UnboundLocalError when connecting fails) instead of returning data. -/
theorem c1_insert_never_stores_submitted_values :
    ∀ (r : ContactManagerDB.Registry) (cid : Option Int)
      (w : ContactManagerDB.PgWorld),
      ContactManagerDB.get_registry_input r cid = Option.none
      ∧ exceptOk (ContactManagerDB.insert_new_registry r w).1 = false
      ∧ exceptOk (ContactManagerDB.list_selected_contacts w).1 = false := by
  intro r cid w
  refine ⟨rfl, ?_, ?_⟩ <;>
    simp only [ContactManagerDB.insert_new_registry,
      ContactManagerDB.list_selected_contacts,
      ContactManagerDB.connection_database, QueryDB.queries_dict] <;>
    by_cases h : w.connectFails <;> simp [h, exceptOk]

/-- C2: search with none of Name, Direction, Email present should return an
empty result set and issue no query.  Against the code: no SQL statement is
ever executed (that half holds), but instead of returning the empty list the
operation raises — `_construct_query` dies with NameError inside the broken
`QueryDB.queries_dict` (or the close in `finally` dies with
UnboundLocalError when the connection attempt failed). -/
theorem c2_empty_criteria_search_raises :
    ∀ w : ContactManagerDB.PgWorld,
      (ContactManagerDB.query_registry [] w).1
        = .error (if w.connectFails then .unboundLocalError "db"
                  else .nameError "self")
      ∧ (ContactManagerDB.query_registry [] w).2.executed = w.executed := by
  intro w
  by_cases h : w.connectFails <;>
    simp [ContactManagerDB.query_registry, ContactManagerDB.connection_database,
      ContactManagerDB.construct_query, QueryDB.queries_dict,
      ContactManagerDB.close_connection_database, h]

/-- C3: with at least one of Name, Direction, Email present, the constructed
filtered select should contain one condition per present field, join them
with AND and end with the fixed sort; search on Name Jane should return the
matching rows.  Against the code: `_construct_query` always raises NameError
on its first line (broken `queries_dict`, bare `SQL_SELECT`), so no filtered
select is ever constructed and the Jane search raises instead of returning
rows; independently, `_query_conditions` raises NameError on the undefined
name `direction`, and the base template reads from the misspelled table
Contactos. -/
theorem c3_filtered_select_never_constructed :
    ∀ (n d e : Option String) (w : ContactManagerDB.PgWorld),
      ContactManagerDB.construct_query n d e = .error (.nameError "self")
      ∧ ContactManagerDB.query_conditions n d e = .error (.nameError "direction")
      ∧ exceptOk (ContactManagerDB.query_registry [("Name", "Jane")] w).1 = false
      ∧ QueryDB.SQL_SELECT = "SELECT * FROM Contactos WHERE" := by
  intro n d e w
  refine ⟨rfl, rfl, ?_, rfl⟩
  by_cases h : w.connectFails <;>
    simp [ContactManagerDB.query_registry, ContactManagerDB.connection_database,
      ContactManagerDB.construct_query, QueryDB.queries_dict, exceptOk, h]

/-- C8: update and delete on an identifier not present in storage should
return a zero-rows-affected result and never raise.  Against the code both
operations always raise (NameError from the broken `QueryDB.queries_dict`,
or UnboundLocalError when connecting fails) for every identifier, so they
never return any rows-affected count; the submitted registry is also
discarded by the `_get_registry_input` stub. -/
theorem c8_update_delete_always_raise :
    ∀ (r : ContactManagerDB.Registry) (cid : Int)
      (w : ContactManagerDB.PgWorld),
      exceptOk (ContactManagerDB.update_registry r cid w).1 = false
      ∧ exceptOk (ContactManagerDB.delete_registry cid w).1 = false := by
  intro r cid w
  constructor <;>
    simp only [ContactManagerDB.update_registry, ContactManagerDB.delete_registry,
      ContactManagerDB.connection_database, QueryDB.queries_dict] <;>
    by_cases h : w.connectFails <;> simp [h, exceptOk]

/-- C9: every store operation acquires at most one connection/cursor pair
(exactly one whenever the connection attempt succeeds, none when it fails)
and releases every acquired connection on every exit path, so the number of
open connections is unchanged when the operation returns or raises.  This
holds for all five CRUD operations of DataPersistence.py: their try/finally
structure closes the pair on success and on every raising path on which one
was acquired. -/
theorem c9_connections_released_on_every_path :
    ∀ (r : ContactManagerDB.Registry) (cid : Int)
      (w : ContactManagerDB.PgWorld),
      ((ContactManagerDB.insert_new_registry r w).2.opened
          = w.opened + ContactManagerDB.acquiredFrom w
        ∧ (ContactManagerDB.insert_new_registry r w).2.closed
          = w.closed + ContactManagerDB.acquiredFrom w)
      ∧ ((ContactManagerDB.update_registry r cid w).2.opened
          = w.opened + ContactManagerDB.acquiredFrom w
        ∧ (ContactManagerDB.update_registry r cid w).2.closed
          = w.closed + ContactManagerDB.acquiredFrom w)
      ∧ ((ContactManagerDB.delete_registry cid w).2.opened
          = w.opened + ContactManagerDB.acquiredFrom w
        ∧ (ContactManagerDB.delete_registry cid w).2.closed
          = w.closed + ContactManagerDB.acquiredFrom w)
      ∧ ((ContactManagerDB.list_selected_contacts w).2.opened
          = w.opened + ContactManagerDB.acquiredFrom w
        ∧ (ContactManagerDB.list_selected_contacts w).2.closed
          = w.closed + ContactManagerDB.acquiredFrom w)
      ∧ ((ContactManagerDB.query_registry r w).2.opened
          = w.opened + ContactManagerDB.acquiredFrom w
        ∧ (ContactManagerDB.query_registry r w).2.closed
          = w.closed + ContactManagerDB.acquiredFrom w) := by
  intro r cid w
  by_cases h : w.connectFails <;>
    simp [ContactManagerDB.insert_new_registry, ContactManagerDB.update_registry,
      ContactManagerDB.delete_registry, ContactManagerDB.list_selected_contacts,
      ContactManagerDB.query_registry, ContactManagerDB.connection_database,
      ContactManagerDB.construct_query, QueryDB.queries_dict,
      ContactManagerDB.close_connection_database,
      ContactManagerDB.acquiredFrom, h]

namespace InputDataValidator

/- Embedding of InputDataValidator.py.

The validation regexes are embedded as an explicit regular-expression AST
together with a matcher that mirrors Python re semantics for the constructs
these patterns use: character classes, literals, the any-character dot,
alternation (leftmost alternative preferred), greedy option, greedy
one-or-more / zero-or-more over a character class, and greedy bounded
repetition over a character class.  `re.search` scans start positions left to
right and at the first matching position returns the backtracking engine's
preferred match, which the ordering of `matchEnds` reproduces (longest
repetition first, left alternative first, present option first). -/

/-- Regular-expression AST covering the constructs used by the validator
patterns.  Repetition operators are restricted to character classes, which is
all these patterns need. -/
inductive Regex where
  /-- Matches the empty string. -/
  | eps
  /-- A literal character. -/
  | lit (c : Char)
  /-- Python `.`: any character except a newline. -/
  | dot
  /-- A character class: any one character from the list. -/
  | cls (cs : List Char)
  /-- Concatenation. -/
  | seq (a b : Regex)
  /-- Alternation, left alternative preferred. -/
  | alt (a b : Regex)
  /-- Greedy option `?`. -/
  | opt (a : Regex)
  /-- Greedy `+` over a character class. -/
  | plus (cs : List Char)
  /-- Greedy `*` over a character class. -/
  | star (cs : List Char)
  /-- Greedy bounded repetition over a character class, between lo and hi
  occurrences. -/
  | rep (cs : List Char) (lo hi : Nat)
deriving DecidableEq, Repr

/-- Remainders after greedily matching zero or more class characters,
longest match first. -/
def clsStarEnds (cs : List Char) : List Char → List (List Char)
  | [] => [[]]
  | c :: rest =>
      (if cs.contains c then clsStarEnds cs rest else []) ++ [c :: rest]

/-- Remainders after greedily matching one or more class characters,
longest match first. -/
def clsPlusEnds (cs : List Char) : List Char → List (List Char)
  | [] => []
  | c :: rest => if cs.contains c then clsStarEnds cs rest else []

/-- Remainders after matching between `lo` and `hi` class characters,
longest match first. -/
def clsRepEnds (cs : List Char) (lo hi : Nat) : List Char → List (List Char)
  | [] => if lo = 0 then [[]] else []
  | c :: rest =>
      match hi with
      | 0 => if lo = 0 then [c :: rest] else []
      | hi' + 1 =>
          (if cs.contains c then clsRepEnds cs (lo - 1) hi' rest else []) ++
            (if lo = 0 then [c :: rest] else [])

/-- All remainders after matching the regex against a prefix of the input,
listed in the backtracking engine's preference order. -/
def matchEnds : Regex → List Char → List (List Char)
  | .eps, s => [s]
  | .lit _, [] => []
  | .lit c, d :: rest => if d = c then [rest] else []
  | .dot, [] => []
  | .dot, d :: rest => if d = '\n' then [] else [rest]
  | .cls _, [] => []
  | .cls cs, d :: rest => if cs.contains d then [rest] else []
  | .seq a b, s => (matchEnds a s).flatMap (fun r => matchEnds b r)
  | .alt a b, s => matchEnds a s ++ matchEnds b s
  | .opt a, s => matchEnds a s ++ [s]
  | .plus cs, s => clsPlusEnds cs s
  | .star cs, s => clsStarEnds cs s
  | .rep cs lo hi, s => clsRepEnds cs lo hi s

/-- Python `re.search`: scan start positions left to right; at the first
position where the pattern matches, return the engine's preferred match
(the consumed prefix). -/
def searchMatch (r : Regex) : List Char → Option (List Char)
  | [] =>
      match matchEnds r [] with
      | [] => Option.none
      | _ :: _ => Option.some []
  | c :: rest =>
      match matchEnds r (c :: rest) with
      | e :: _ => Option.some (List.take ((c :: rest).length - e.length) (c :: rest))
      | [] => searchMatch r rest

/-- Lowercase latin letters. -/
def lower_chars : List Char := "abcdefghijklmnopqrstuvwxyz".data

/-- Uppercase latin letters. -/
def upper_chars : List Char := "ABCDEFGHIJKLMNOPQRSTUVWXYZ".data

/-- All latin letters. -/
def letter_chars : List Char := lower_chars ++ upper_chars

/-- Decimal digits. -/
def digit_chars : List Char := "0123456789".data

/-- Python whitespace class backslash-s: space, tab, newline, carriage
return, vertical tab, form feed. -/
def space_chars : List Char := [' ', '\t', '\n', '\r', '\x0B', '\x0C']

/-- InputDataValidator.py line 29, NAME_REGEX: one or more of letters, dot,
whitespace (an unanchored group, used with re.search). -/
def name_class : List Char := letter_chars ++ ['.'] ++ space_chars

/-- The NAME_REGEX pattern as an AST. -/
def NAME_REGEX : Regex := .plus name_class

/-- The separator alternation of PHONE_REGEX: whitespace, dash or dot. -/
def sep_class : List Char := space_chars ++ ['-', '.']

/-- A regex matching the characters of `s` in order. -/
def strRe (s : String) : Regex :=
  s.data.foldr (fun c r => .seq (.lit c) r) .eps

/-- PHONE_REGEX area-code part: three digits, bare or parenthesised. -/
def area_code : Regex :=
  .alt (.rep digit_chars 3 3)
    (.seq (.lit '(') (.seq (.rep digit_chars 3 3) (.lit ')')))

/-- PHONE_REGEX extension keyword: ext, x, or ext followed by any character
(the unescaped dot of the source pattern). -/
def ext_word : Regex :=
  .alt (strRe "ext") (.alt (.lit 'x') (.seq (strRe "ext") .dot))

/-- PHONE_REGEX optional extension suffix. -/
def ext_part : Regex :=
  .seq (.star space_chars)
    (.seq ext_word (.seq (.star space_chars) (.rep digit_chars 2 5)))

/-- InputDataValidator.py line 31, PHONE_REGEX: optional area code, optional
separator, three digits, separator, four digits, optional extension. -/
def PHONE_REGEX : Regex :=
  .seq (.opt area_code)
    (.seq (.opt (.cls sep_class))
      (.seq (.rep digit_chars 3 3)
        (.seq (.cls sep_class)
          (.seq (.rep digit_chars 4 4) (.opt ext_part)))))

/-- The local-part / domain character class of EMAIL_REGEX: alphanumerics
and dot, underscore, percent, plus, dash. -/
def email_class : List Char :=
  letter_chars ++ digit_chars ++ ['.', '_', '%', '+', '-']

/-- InputDataValidator.py line 32, EMAIL_REGEX: local part, at sign, domain,
dot, a 2-4 letter TLD. -/
def EMAIL_REGEX : Regex :=
  .seq (.plus email_class)
    (.seq (.lit '@')
      (.seq (.plus email_class)
        (.seq (.lit '.') (.rep letter_chars 2 4))))

/-- InputDataValidator.py lines 140-151, `_match_data`: runs
`regex.search(data)` and takes `.group(0)` on the result.  When the search
finds no match, the match object is None and `.group(0)` raises
AttributeError (not the InputDataError of the else branch, which is only
raised when a zero-length match — falsy group — is found). -/
def match_data (pattern : Regex) (data : String) : Except PyErr String :=
  match searchMatch pattern data.data with
  | Option.none => .error (.attributeError "group")
  | Option.some m =>
      if m = [] then .error (.inputDataError ("Invalid input: " ++ data))
      else .ok (String.mk m)

/-- Whether `_match_data` accepts the input (returns a matched value rather
than raising). -/
def accepted (pattern : Regex) (data : String) : Bool :=
  exceptOk (match_data pattern data)

/-- Modelled from the claim's words, for comparison with the code: a name
consists of one or more letters, spaces, or periods. -/
def claimNameConsistsOnlyOf (s : String) : Bool :=
  !s.data.isEmpty && s.data.all (fun c => name_class.contains c)

/-- InputDataValidator.py lines 113-124, `_valid_data`.  Its parameter is
`regex`, but the body calls `self._match_data(pattern, data)` with the
undefined name `pattern`, raising NameError before any matching can happen
(the except clause catches only InputDataError, and would itself die on the
undefined name `data_name`). -/
def valid_data (regex : Regex) (data : Option String) : Except PyErr Bool :=
  .error (.nameError "pattern")

/-- InputDataValidator.py lines 60-66, classmethod `regex_dict`: its
parameter is `cls` but the body reads `self.__class__.__dict__`, so every
call raises NameError. -/
def regex_dict : Except PyErr (List (String × Regex)) :=
  .error (.nameError "self")

/-- InputDataValidator.py lines 126-138, `_validate_input_data`: iterates
over `self.__class__.regex_dict().items()`, so it raises the NameError from
`regex_dict` before any field is visited (had it returned, the call
join applied to two arguments on the next line raises TypeError). -/
def validate_input_data : Except PyErr Unit :=
  match regex_dict with
  | .error e => .error e
  | .ok _ => .error (.typeError "str.join takes exactly one argument")

end InputDataValidator

/-- Auxiliary: `clsStarEnds` always yields at least one remainder. -/
theorem clsStarEnds_ne_nil (cs : List Char) (l : List Char) :
    InputDataValidator.clsStarEnds cs l ≠ [] := by
  cases l with
  | nil => simp [InputDataValidator.clsStarEnds]
  | cons c rest => simp [InputDataValidator.clsStarEnds]

/-- Auxiliary: unfolding of `searchMatch` on a non-empty input. -/
theorem searchMatch_cons (r : InputDataValidator.Regex) (c : Char)
    (rest : List Char) :
    InputDataValidator.searchMatch r (c :: rest)
      = match InputDataValidator.matchEnds r (c :: rest) with
        | e :: _ =>
            Option.some (List.take ((c :: rest).length - e.length) (c :: rest))
        | [] => InputDataValidator.searchMatch r rest := rfl

/-- Auxiliary: every remainder produced by `clsStarEnds` is no longer than
the input. -/
theorem clsStarEnds_length_le (cs : List Char) :
    ∀ (l e : List Char), e ∈ InputDataValidator.clsStarEnds cs l →
      e.length ≤ l.length := by
  intro l
  induction l with
  | nil =>
      intro e he
      simp only [InputDataValidator.clsStarEnds, List.mem_singleton] at he
      simp [he]
  | cons c rest ih =>
      intro e he
      have hrw : InputDataValidator.clsStarEnds cs (c :: rest)
          = (if cs.contains c then InputDataValidator.clsStarEnds cs rest
             else []) ++ [c :: rest] := rfl
      rw [hrw] at he
      rcases List.mem_append.mp he with he | he
      · by_cases h : cs.contains c
        · rw [if_pos h] at he
          exact le_trans (ih e he) (Nat.le_succ _)
        · rw [if_neg h] at he
          exact absurd he (List.not_mem_nil e)
      · rw [List.mem_singleton] at he
        exact he ▸ le_rfl

/-- Auxiliary: searching for one-or-more-of-a-class succeeds exactly on
inputs containing at least one class character, and the found match is
never empty. -/
theorem searchMatch_plus_spec (cs : List Char) :
    ∀ l : List Char,
      (InputDataValidator.searchMatch (.plus cs) l = Option.none
          ∧ l.any (fun c => cs.contains c) = false)
      ∨ (∃ m, InputDataValidator.searchMatch (.plus cs) l = Option.some m
          ∧ m ≠ [] ∧ l.any (fun c => cs.contains c) = true) := by
  intro l
  induction l with
  | nil =>
      left
      exact ⟨rfl, by simp⟩
  | cons c rest ih =>
      by_cases h : cs.contains c
      · right
        have hne := clsStarEnds_ne_nil cs rest
        match hst : InputDataValidator.clsStarEnds cs rest with
        | [] => exact absurd hst hne
        | e :: es =>
          have hmem : e ∈ InputDataValidator.clsStarEnds cs rest := by
            rw [hst]; exact List.mem_cons_self _ _
          have hlen : e.length ≤ rest.length := clsStarEnds_length_le cs rest e hmem
          have hplus : InputDataValidator.clsPlusEnds cs (c :: rest)
              = if cs.contains c then InputDataValidator.clsStarEnds cs rest
                else [] := rfl
          have hends : InputDataValidator.matchEnds
              (InputDataValidator.Regex.plus cs) (c :: rest) = e :: es := by
            show InputDataValidator.clsPlusEnds cs (c :: rest) = e :: es
            rw [hplus, if_pos h, hst]
          refine ⟨List.take ((c :: rest).length - e.length) (c :: rest), ?_, ?_, ?_⟩
          · rw [searchMatch_cons, hends]
          · have hpos : (c :: rest).length - e.length
                = (rest.length - e.length) + 1 := by
              simp only [List.length_cons]
              omega
            rw [hpos, List.take_succ_cons]
            exact List.cons_ne_nil _ _
          · simp only [List.any_cons, h, Bool.true_or]
      · have hcontains : cs.contains c = false := by simpa using h
        have hplus : InputDataValidator.clsPlusEnds cs (c :: rest)
            = if cs.contains c then InputDataValidator.clsStarEnds cs rest
              else [] := rfl
        have hends : InputDataValidator.matchEnds
            (InputDataValidator.Regex.plus cs) (c :: rest) = [] := by
          show InputDataValidator.clsPlusEnds cs (c :: rest) = []
          rw [hplus, if_neg h]
        have hsearch : InputDataValidator.searchMatch
            (InputDataValidator.Regex.plus cs) (c :: rest)
            = InputDataValidator.searchMatch
                (InputDataValidator.Regex.plus cs) rest := by
          rw [searchMatch_cons, hends]
        rcases ih with ⟨hn, ha⟩ | ⟨m, hm, hmne, ha⟩
        · left
          refine ⟨by rw [hsearch, hn], ?_⟩
          simp only [List.any_cons, hcontains, Bool.false_or]
          exact ha
        · right
          refine ⟨m, by rw [hsearch, hm], hmne, ?_⟩
          simp only [List.any_cons, hcontains, Bool.false_or]
          exact ha

/-- C4 counterexample: the claim states a name is accepted exactly when it
consists of one or more letters, spaces, or periods, and in particular that
J0hn is rejected; but `_match_data` uses `re.search`, which finds the
substring J inside J0hn, so the code accepts J0hn even though it does not
consist solely of name characters. -/
theorem c4_counterexample_J0hn_accepted :
    InputDataValidator.accepted InputDataValidator.NAME_REGEX "J0hn" = true
    ∧ InputDataValidator.claimNameConsistsOnlyOf "J0hn" = false := by
  constructor <;> rfl

/-- C4 (amended): the validators decide inputs by searching for their pattern
anywhere in the input, so a name is accepted exactly when it contains at
least one letter, space, or period; John.Doe is accepted (matching in full)
and J0hn is also accepted (matching just its letter J); (555) 123-4567 is
accepted as a phone and a@b.com as an email, while notaphone and a-at-b
contain no pattern match and fail with an AttributeError on the absent match
object rather than being cleanly rejected. -/
theorem c4_validator_search_semantics :
    (∀ s : String,
      InputDataValidator.accepted InputDataValidator.NAME_REGEX s
        = s.data.any (fun c => InputDataValidator.name_class.contains c))
    ∧ InputDataValidator.match_data InputDataValidator.NAME_REGEX "John.Doe"
        = .ok "John.Doe"
    ∧ InputDataValidator.match_data InputDataValidator.NAME_REGEX "J0hn"
        = .ok "J"
    ∧ InputDataValidator.match_data InputDataValidator.PHONE_REGEX "(555) 123-4567"
        = .ok "(555) 123-4567"
    ∧ InputDataValidator.match_data InputDataValidator.PHONE_REGEX "notaphone"
        = .error (.attributeError "group")
    ∧ InputDataValidator.match_data InputDataValidator.EMAIL_REGEX "a@b.com"
        = .ok "a@b.com"
    ∧ InputDataValidator.match_data InputDataValidator.EMAIL_REGEX "a-at-b"
        = .error (.attributeError "group") := by
  refine ⟨?_, rfl, rfl, rfl, rfl, rfl, rfl⟩
  intro s
  rcases searchMatch_plus_spec InputDataValidator.name_class s.data with
    ⟨hn, ha⟩ | ⟨m, hm, hne, ha⟩
  · rw [ha]
    simp only [InputDataValidator.accepted, InputDataValidator.match_data,
      InputDataValidator.NAME_REGEX, hn, exceptOk]
  · rw [ha]
    simp only [InputDataValidator.accepted, InputDataValidator.match_data,
      InputDataValidator.NAME_REGEX, hm]
    rw [if_neg hne]
    rfl

/-- C5: validation of each field should yield either the matched value or a
rejection naming the offending field and raw value, with failed optional
fields set absent and the flow never aborting.  Against the code this fails:
`_valid_data` dereferences the undefined name `pattern` (its parameter is
`regex`), so every per-field validation raises NameError instead of
returning a value or a rejection, and `_validate_input_data` raises the
NameError from the broken classmethod `regex_dict` before visiting any
field, so the validate-and-submit flow always aborts. -/
theorem c5_validation_always_raises :
    ∀ (rgx : InputDataValidator.Regex) (d : Option String),
      InputDataValidator.valid_data rgx d = .error (.nameError "pattern")
      ∧ InputDataValidator.validate_input_data = .error (.nameError "self") := by
  intro rgx d
  exact ⟨rfl, rfl⟩

/-- Whether the character list `pre` is an initial segment of the second
list. -/
def charsHavePre : List Char → List Char → Bool
  | [], _ => true
  | _ :: _, [] => false
  | a :: as, b :: bs => a == b && charsHavePre as bs

/-- Whether the character list `needle` occurs contiguously inside the
second list. -/
def charsHaveSub (needle : List Char) : List Char → Bool
  | [] => needle.isEmpty
  | c :: rest => charsHavePre needle (c :: rest) || charsHaveSub needle rest

/-- Whether `needle` occurs as a substring of `hay`. -/
def strContainsStr (hay needle : String) : Bool :=
  charsHaveSub needle.data hay.data

/-- A single-quote character, for rendering Python string reprs. -/
def pyQuote : String := String.singleton (Char.ofNat 39)

/-- An opening curly brace, for rendering Python dict reprs. -/
def pyLCurly : String := String.singleton (Char.ofNat 123)

/-- A closing curly brace, for rendering Python dict reprs. -/
def pyRCurly : String := String.singleton (Char.ofNat 125)

/-- How Python str() renders one of our parameter values. -/
def renderVal : PyVal → String
  | PyVal.none => "None"
  | PyVal.int n => toString n
  | PyVal.str s => pyQuote ++ s ++ pyQuote

/-- How Python str() renders a dict of parameter values (insertion order). -/
def renderDict (d : List (String × PyVal)) : String :=
  pyLCurly ++
    String.intercalate ", "
      (d.map (fun kv => pyQuote ++ kv.1 ++ pyQuote ++ ": " ++ renderVal kv.2))
    ++ pyRCurly

namespace GooglePlaces

/- Embedding of GooglePlacesAPI.py, class GooglePlaces. -/

/-- GooglePlacesAPI.py line 40. -/
def MAX_RADIUS : Int := 50000

/-- GooglePlacesAPI.py lines 41-44: coordinate bounds. -/
def MAX_ABS_LATITUDE : Rat := 90

/-- GooglePlacesAPI.py line 44. -/
def MAX_ABS_LONGITUDE : Rat := 180

/-- The client state: the API key loaded at construction plus the mutable
request-parameter dict (empty at construction). -/
structure ClientState where
  api_key : String
  request_params : List (String × PyVal)
deriving DecidableEq, Repr

/-- Python dict item assignment on an insertion-ordered dict: overwrite in
place when the key exists, else append. -/
def dictSet (d : List (String × PyVal)) (k : String) (v : PyVal) :
    List (String × PyVal) :=
  if d.any (fun kv => kv.1 == k) then
    d.map (fun kv => if kv.1 == k then (k, v) else kv)
  else d ++ [(k, v)]

/-- GooglePlacesAPI.py lines 65-76, `_get_api_key`: the body calls
configparser.ConfigParser(), but this module never imports configparser, so
key loading raises NameError at once (were it reached, the parser.get
arguments are also swapped). -/
def get_api_key : Except PyErr String :=
  .error (.nameError "configparser")

/-- GooglePlacesAPI.py lines 149-156, `_valid_geographic_coordinates`:
the chained bound checks 0 <= abs(latitude) <= 90 and
0 <= abs(longitude) <= 180 (reading the two source lines as the one
condition their missing line continuation evidently intends). -/
def valid_geographic_coordinates (latitude longitude : Rat) : Bool :=
  decide (0 ≤ |latitude| ∧ |latitude| ≤ MAX_ABS_LATITUDE) &&
    decide (0 ≤ |longitude| ∧ |longitude| ≤ MAX_ABS_LONGITUDE)

/-- GooglePlacesAPI.py lines 125-134, `_generate_location_param`: when the
coordinates pass the bounds check, the source evaluates a str.format call
with named placeholders but positional arguments, which raises KeyError
(latitude); when the check fails it raises ValueError. -/
def generate_location_param (latitude longitude : Rat) : Except PyErr String :=
  if valid_geographic_coordinates latitude longitude then
    .error (.keyError "latitude")
  else
    .error (.valueError "Coordinate parameters out of bounds.")

/-- GooglePlacesAPI.py lines 136-147, `_validate_location_param`: the body
calls re.compile, but this module never imports re, so the call raises
NameError at once. -/
def validate_location_param (location : String) : Except PyErr String :=
  .error (.nameError "re")

/-- GooglePlacesAPI.py lines 112-123, `_search_location`: when both latitude
and longitude are supplied, the location parameter is derived from them and
the free-text location argument is ignored; otherwise a supplied free-text
location string is parsed and validated; otherwise location stays None.  A
ValueError from either helper is caught and re-raised as GooglePlacesError;
other exceptions propagate unchanged. -/
def search_location (latitude longitude : Option Rat)
    (location : Option String) : Except PyErr (Option String) :=
  let attempt : Except PyErr (Option String) :=
    match latitude, longitude with
    | Option.some la, Option.some lo =>
        (generate_location_param la lo).map Option.some
    | _, _ =>
        match location with
        | Option.some l => (validate_location_param l).map Option.some
        | Option.none => .ok Option.none
  match attempt with
  | .error (.valueError m) =>
      .error (.googlePlacesError ("Input data value error: " ++ m))
  | r => r

/-- GooglePlacesAPI.py lines 158-165, `_search_radius`: a requested radius
within the maximum is passed through unchanged; larger values are replaced
by the string form of the maximum. -/
def search_radius (radius : Int) : PyVal :=
  if radius ≤ MAX_RADIUS then PyVal.int radius else PyVal.str "50000"

/-- GooglePlacesAPI.py lines 94-110, `_set_request_params`: assigns query,
location (via `_search_location`, whose exception aborts the assembly),
radius, then conditionally type, language and pagetoken, and finally the
API key itself under the key entry.  The type branch calls the nonexistent
attribute `GooglePlacesAttributes.types_dict` (the classmethod is named
types_list), raising AttributeError whenever types is non-empty; the
language branch calls languages_dict, whose body reads
`self.__class__.LANGUAGES_DICT` with self bound to the class — that is the
metaclass type, which has no such attribute, so a supplied language raises
AttributeError too. -/
def set_request_params (g : ClientState) (query : Option String)
    (latitude longitude : Option Rat) (location : Option String)
    (radius : Int) (types : List String)
    (language pagetoken : Option String) : Except PyErr ClientState := do
  let p0 := dictSet g.request_params "query" (PyVal.ofOptStr query)
  let locv ← search_location latitude longitude location
  let p1 := dictSet p0 "location" (PyVal.ofOptStr locv)
  let p2 := dictSet p1 "radius" (search_radius radius)
  let p3 ← if types.length ≥ 1 then
      Except.error (PyErr.attributeError "types_dict")
    else pure p2
  let p4 ← match language with
    | Option.some _ => Except.error (PyErr.attributeError "LANGUAGES_DICT")
    | Option.none => pure p3
  let p5 := match pagetoken with
    | Option.some t => dictSet p4 "pagetoken" (PyVal.str t)
    | Option.none => p4
  pure { g with request_params := dictSet p5 "key" (PyVal.str g.api_key) }

/-- GooglePlacesAPI.py lines 78-92, `text_search`: the request parameters
are assembled first (line 84) and the HTTP request object is built and
fetched only afterwards (lines 87-89), so a network request is issued
exactly when parameter assembly returns normally.  Defaults: radius 100,
types empty, language and pagetoken absent. -/
def text_search_issues_request (g : ClientState) (query : Option String)
    (latitude longitude : Option Rat) (location : Option String) : Bool :=
  exceptOk (set_request_params g query latitude longitude location 100 []
    Option.none Option.none)

/-- GooglePlacesAPI.py lines 56-63, `__str__`: builds a dict holding the
class name and then every current request parameter — the API key entry
included, with no masking — and renders it like Python str(dict). -/
def googleplaces_str (g : ClientState) : String :=
  renderDict (g.request_params.foldl (fun q kv => dictSet q kv.1 kv.2)
    [("classname", PyVal.str "GooglePlaces")])

/-- The client state obtained by assembling request parameters for a plain
text query under the given API key (no coordinates, no location string,
default radius, no types, language or page token); falls back to the fresh
state had assembly raised. -/
def demo_client (k : String) : ClientState :=
  match set_request_params { api_key := k, request_params := [] }
      (Option.some "bar") Option.none Option.none Option.none 100 []
      Option.none Option.none with
  | .ok g => g
  | .error _ => { api_key := k, request_params := [] }

end GooglePlaces

namespace GooglePlacesSearchResponse

/- Embedding of GooglePlacesAPI.py, class GooglePlacesSearchResponse. -/

/-- GooglePlacesAPI.py line 245. -/
def STATUS_OK : String := "OK"

/-- GooglePlacesAPI.py line 246. -/
def STATUS_ZERO_RESULTS : String := "ZERO_RESULTS"

/-- GooglePlacesAPI.py line 247. -/
def STATUS_OVER_QUERY_LIMIT : String := "OVER_QUERY_LIMIT"

/-- GooglePlacesAPI.py line 248. -/
def STATUS_REQUEST_DENIED : String := "REQUEST_DENIED"

/-- GooglePlacesAPI.py line 249. -/
def STATUS_INVALID_REQUEST : String := "INVALID_REQUEST"

/-- The JSON body of a places response: its status string, its results
array (entries kept opaque), and the optional attribution and pagination
fields. -/
structure PlacesJson where
  status : String
  results : List String
  html_attributions : Option String
  next_page_token : Option String
deriving DecidableEq, Repr

/-- The constructed search-response object. -/
structure ResponseState where
  request_url : String
  response : PlacesJson
  places : List String
  html_attributions : Option String
  next_page_token : Option String
deriving DecidableEq, Repr

/-- GooglePlacesAPI.py lines 251-261, `__init__`: stores the url and raw
response, then builds one place object per entry of the results array.  The
loop body names the class GooglePlacesResultPlace, which does not exist (the
class defined below it is GooglePlacesResponsePlace), so a non-empty results
array raises NameError; with an empty results array the loop never runs and
the object is built with an empty place list. -/
def init (request_url : String) (response : PlacesJson) :
    Except PyErr ResponseState :=
  match response.results with
  | [] =>
      .ok { request_url := request_url, response := response, places := [],
            html_attributions := response.html_attributions,
            next_page_token := response.next_page_token }
  | _ :: _ => .error (.nameError "GooglePlacesResultPlace")

/-- GooglePlacesAPI.py lines 277-280: the success status list. -/
def response_success_status : List String := [STATUS_OK, STATUS_ZERO_RESULTS]

/-- GooglePlacesAPI.py lines 281-285: the failure status list. -/
def response_fail_status : List String :=
  [STATUS_OVER_QUERY_LIMIT, STATUS_REQUEST_DENIED, STATUS_INVALID_REQUEST]

/-- The failure message raised for a failure status. -/
def fail_msg (s : ResponseState) : String :=
  "Failed request to URL " ++ s.request_url ++ " with status code: " ++
    s.response.status

/-- GooglePlacesAPI.py lines 273-293, `_validate_response_status` (reading
the two message assignments as the format calls their unbalanced parentheses
evidently intend): a status in the success list is reported and the call
returns normally; a status in the failure list raises GooglePlacesError;
any other status falls through silently. -/
def validate_response_status (s : ResponseState) : Except PyErr Unit :=
  if response_success_status.contains s.response.status then .ok ()
  else if response_fail_status.contains s.response.status then
    .error (.googlePlacesError (fail_msg s))
  else .ok ()

end GooglePlacesSearchResponse

/-- C6: when latitude and longitude are both supplied, the pair is validated
to lie within 90 degrees absolute latitude and 180 degrees absolute
longitude and takes precedence over a free-text location string, and an
out-of-bound coordinate such as latitude 95 is rejected — the call fails
with GooglePlacesError — before any network request is issued (parameter
assembly precedes the fetch in text_search). -/
theorem c6_out_of_bounds_rejected_before_request :
    ∀ (la lo : Rat) (loc loc2 : Option String)
      (g : GooglePlaces.ClientState) (q : Option String),
      (GooglePlaces.valid_geographic_coordinates la lo = true
        ↔ (|la| ≤ 90 ∧ |lo| ≤ 180))
      ∧ GooglePlaces.search_location (Option.some la) (Option.some lo) loc
          = GooglePlaces.search_location (Option.some la) (Option.some lo) loc2
      ∧ (90 < |la| →
          GooglePlaces.search_location (Option.some la) (Option.some lo) loc
            = .error (.googlePlacesError
                "Input data value error: Coordinate parameters out of bounds.")
          ∧ GooglePlaces.text_search_issues_request g q (Option.some la)
              (Option.some lo) loc = false) := by
  intro la lo loc loc2 g q
  refine ⟨?_, rfl, ?_⟩
  · simp [GooglePlaces.valid_geographic_coordinates,
      GooglePlaces.MAX_ABS_LATITUDE, GooglePlaces.MAX_ABS_LONGITUDE,
      abs_nonneg]
  · intro h
    have hnot : ¬(|la| ≤ GooglePlaces.MAX_ABS_LATITUDE) := by
      show ¬(|la| ≤ (90 : Rat))
      exact not_le.mpr h
    have hval : GooglePlaces.valid_geographic_coordinates la lo = false := by
      have hd : decide (0 ≤ |la| ∧ |la| ≤ GooglePlaces.MAX_ABS_LATITUDE)
          = false := by
        apply decide_eq_false
        intro hcon
        exact hnot hcon.2
      show (decide (0 ≤ |la| ∧ |la| ≤ GooglePlaces.MAX_ABS_LATITUDE) &&
          decide (0 ≤ |lo| ∧ |lo| ≤ GooglePlaces.MAX_ABS_LONGITUDE)) = false
      rw [hd, Bool.false_and]
    have hgen : GooglePlaces.generate_location_param la lo
        = .error (.valueError "Coordinate parameters out of bounds.") := by
      have hu : GooglePlaces.generate_location_param la lo
          = if GooglePlaces.valid_geographic_coordinates la lo then
              Except.error (PyErr.keyError "latitude")
            else
              Except.error
                (PyErr.valueError "Coordinate parameters out of bounds.") := rfl
      rw [hu, hval]
      simp
    have hloc : GooglePlaces.search_location (Option.some la) (Option.some lo)
        loc = .error (.googlePlacesError
          "Input data value error: Coordinate parameters out of bounds.") := by
      have hu : GooglePlaces.search_location (Option.some la) (Option.some lo)
          loc
          = match (GooglePlaces.generate_location_param la lo).map Option.some
              with
            | .error (.valueError m) =>
                .error (.googlePlacesError ("Input data value error: " ++ m))
            | r => r := rfl
      rw [hu, hgen]
      rfl
    refine ⟨hloc, ?_⟩
    have hsp : GooglePlaces.set_request_params g q (Option.some la)
        (Option.some lo) loc 100 [] Option.none Option.none
        = Except.error (PyErr.googlePlacesError
            "Input data value error: Coordinate parameters out of bounds.") := by
      unfold GooglePlaces.set_request_params
      rw [hloc]
      rfl
    show exceptOk (GooglePlaces.set_request_params g q (Option.some la)
      (Option.some lo) loc 100 [] Option.none Option.none) = false
    rw [hsp]
    rfl

/-- C6 witness: latitude 95 with longitude 0 is rejected with
GooglePlacesError and no network request is issued. -/
theorem c6_out_of_bounds_rejected_before_request_witness :
    GooglePlaces.search_location (Option.some 95) (Option.some 0)
      (Option.some "x")
      = .error (.googlePlacesError
          "Input data value error: Coordinate parameters out of bounds.")
    ∧ GooglePlaces.text_search_issues_request
        { api_key := "k", request_params := [] } Option.none (Option.some 95)
        (Option.some 0) (Option.some "x") = false :=
  (c6_out_of_bounds_rejected_before_request 95 0 (Option.some "x") Option.none
      { api_key := "k", request_params := [] } Option.none).2.2
    (by rw [abs_of_nonneg] <;> norm_num)

/-- C7: statuses OK and ZERO_RESULTS are treated as success by the response
layer — a ZERO_RESULTS response (empty results array) constructs a response
object with an empty place list and passes status validation without
raising — while OVER_QUERY_LIMIT, REQUEST_DENIED and INVALID_REQUEST make
status validation raise GooglePlacesError, aborting the call with no
results delivered. -/
theorem c7_response_status_policy :
    ∀ (url : String) (resp : GooglePlacesSearchResponse.PlacesJson)
      (st : GooglePlacesSearchResponse.ResponseState),
      (resp.status = "ZERO_RESULTS" → resp.results = [] →
        GooglePlacesSearchResponse.init url resp
          = .ok { request_url := url, response := resp, places := [],
                  html_attributions := resp.html_attributions,
                  next_page_token := resp.next_page_token }
        ∧ GooglePlacesSearchResponse.validate_response_status
            { request_url := url, response := resp, places := [],
              html_attributions := resp.html_attributions,
              next_page_token := resp.next_page_token } = .ok ())
      ∧ (st.response.status = "OK" →
          GooglePlacesSearchResponse.validate_response_status st = .ok ())
      ∧ (st.response.status = "OVER_QUERY_LIMIT"
          ∨ st.response.status = "REQUEST_DENIED"
          ∨ st.response.status = "INVALID_REQUEST" →
          GooglePlacesSearchResponse.validate_response_status st
            = .error (.googlePlacesError
                (GooglePlacesSearchResponse.fail_msg st))) := by
  intro url resp st
  refine ⟨?_, ?_, ?_⟩
  · intro hs hr
    constructor
    · simp [GooglePlacesSearchResponse.init, hr]
    · simp [GooglePlacesSearchResponse.validate_response_status,
        GooglePlacesSearchResponse.response_success_status,
        GooglePlacesSearchResponse.STATUS_OK,
        GooglePlacesSearchResponse.STATUS_ZERO_RESULTS, hs]
  · intro hs
    simp [GooglePlacesSearchResponse.validate_response_status,
      GooglePlacesSearchResponse.response_success_status,
      GooglePlacesSearchResponse.STATUS_OK,
      GooglePlacesSearchResponse.STATUS_ZERO_RESULTS, hs]
  · intro hs
    rcases hs with hs | hs | hs <;>
      simp [GooglePlacesSearchResponse.validate_response_status,
        GooglePlacesSearchResponse.response_success_status,
        GooglePlacesSearchResponse.response_fail_status,
        GooglePlacesSearchResponse.STATUS_OK,
        GooglePlacesSearchResponse.STATUS_ZERO_RESULTS,
        GooglePlacesSearchResponse.STATUS_OVER_QUERY_LIMIT,
        GooglePlacesSearchResponse.STATUS_REQUEST_DENIED,
        GooglePlacesSearchResponse.STATUS_INVALID_REQUEST, hs]

/-- C7 witness: a concrete ZERO_RESULTS response constructs with an empty
place list and validates without raising, and a concrete REQUEST_DENIED
response state makes validation raise GooglePlacesError. -/
theorem c7_response_status_policy_witness :
    (GooglePlacesSearchResponse.init "u"
        { status := "ZERO_RESULTS", results := [],
          html_attributions := Option.none, next_page_token := Option.none }
      = .ok { request_url := "u",
              response := { status := "ZERO_RESULTS", results := [],
                            html_attributions := Option.none,
                            next_page_token := Option.none },
              places := [], html_attributions := Option.none,
              next_page_token := Option.none }
      ∧ GooglePlacesSearchResponse.validate_response_status
          { request_url := "u",
            response := { status := "ZERO_RESULTS", results := [],
                          html_attributions := Option.none,
                          next_page_token := Option.none },
            places := [], html_attributions := Option.none,
            next_page_token := Option.none } = .ok ())
    ∧ GooglePlacesSearchResponse.validate_response_status
        { request_url := "u",
          response := { status := "REQUEST_DENIED", results := [],
                        html_attributions := Option.none,
                        next_page_token := Option.none },
          places := [], html_attributions := Option.none,
          next_page_token := Option.none }
        = .error (.googlePlacesError
            (GooglePlacesSearchResponse.fail_msg
              { request_url := "u",
                response := { status := "REQUEST_DENIED", results := [],
                              html_attributions := Option.none,
                              next_page_token := Option.none },
                places := [], html_attributions := Option.none,
                next_page_token := Option.none })) :=
  ⟨(c7_response_status_policy "u"
      { status := "ZERO_RESULTS", results := [],
        html_attributions := Option.none, next_page_token := Option.none }
      { request_url := "u",
        response := { status := "REQUEST_DENIED", results := [],
                      html_attributions := Option.none,
                      next_page_token := Option.none },
        places := [], html_attributions := Option.none,
        next_page_token := Option.none }).1 rfl rfl,
   (c7_response_status_policy "u"
      { status := "ZERO_RESULTS", results := [],
        html_attributions := Option.none, next_page_token := Option.none }
      { request_url := "u",
        response := { status := "REQUEST_DENIED", results := [],
                      html_attributions := Option.none,
                      next_page_token := Option.none },
        places := [], html_attributions := Option.none,
        next_page_token := Option.none }).2.2 (Or.inr (Or.inl rfl))⟩

set_option maxHeartbeats 2000000 in
/-- C10 counterexample: the claim states the string representation of the
client never exposes the API key and is masked so that two clients differing
only in their key do not reveal it; but once request parameters are
assembled, `__str__` renders the params dict verbatim, key entry included —
the representation of a client with key SECRETKEY contains SECRETKEY as a
substring, and clients differing only in their key render differently. -/
theorem c10_counterexample_key_exposed_in_repr :
    strContainsStr
        (GooglePlaces.googleplaces_str (GooglePlaces.demo_client "SECRETKEY"))
        "SECRETKEY" = true
    ∧ GooglePlaces.googleplaces_str (GooglePlaces.demo_client "SECRETKEY")
        ≠ GooglePlaces.googleplaces_str (GooglePlaces.demo_client "OTHERKEY") := by
  constructor
  · decide
  · decide

/-- C10 (amended): the API key is stored unmasked in the request parameters
and the client's string representation masks nothing: before any request
parameters are assembled the representation is independent of the key, but
`_set_request_params` records the full key under the key entry of the
params dict, which `__str__` renders verbatim. -/
theorem c10_repr_masks_nothing :
    ∀ (k k2 q : String),
      GooglePlaces.googleplaces_str { api_key := k, request_params := [] }
        = GooglePlaces.googleplaces_str { api_key := k2, request_params := [] }
      ∧ GooglePlaces.set_request_params { api_key := k, request_params := [] }
          (Option.some q) Option.none Option.none Option.none 100 []
          Option.none Option.none
        = .ok { api_key := k,
                request_params := [("query", PyVal.str q),
                  ("location", PyVal.none), ("radius", PyVal.int 100),
                  ("key", PyVal.str k)] }
      ∧ ("key", PyVal.str k) ∈
          [("query", PyVal.str q), ("location", PyVal.none),
            ("radius", PyVal.int 100), ("key", PyVal.str k)] := by
  intro k k2 q
  refine ⟨rfl, rfl, ?_⟩
  simp
